import Mathlib

/-!
Shallow embedding of the design-pattern calculator (`app/main.py` together with
the package modules `app/operations/*.py`, `app/calculator/calculator_observer.py`,
`app/history/__init__.py`, which contain the same class definitions).

Modelling conventions:
* Python numeric values are embedded as `PyVal`: `bool`, `int`, exact-rational
  `float` (with `inf`, `-inf`, `nan` as separate constructors), and `str` for
  the non-numeric inputs exercised by validation.  IEEE-754 rounding, overflow
  and signed zero are outside the scope of every claim and are not modelled:
  finite floats are exact rationals (`PyQ`, a kernel-computable rational type).
* Exceptions (`raise ValueError`) are embedded as `Except PyError`.
* `logging.*` calls are embedded as emitted `LogEntry` values where a claim
  refers to them; crucially, a Python f-string such as
  `f"... {calculation}"` eagerly evaluates `str(calculation)` — that is,
  `Calculation.__str__`, which re-runs `operation.calculate` — before the
  logging call, so the embedding of each such logging statement evaluates the
  record's rendering and propagates its error.
-/

namespace CalcApp

/-! ## Kernel-computable rationals (the value model for finite floats) -/

/-- Fuel-driven Euclidean gcd; `gcdFuel (m+1) m n` always has enough fuel. -/
def gcdFuel : Nat → Nat → Nat → Nat
  | 0, _, n => n
  | fuel+1, m, n => if m = 0 then n else gcdFuel fuel (n % m) m

/-- Greatest common divisor via `gcdFuel` (structurally recursive, so concrete
instances reduce inside the kernel). -/
def ngcd (m n : Nat) : Nat := gcdFuel (m+1) m n

/-- An exact rational `n / d`; all arithmetic goes through `PyQ.mk'`, which
normalises, so values built by the operations below have `d > 0` and are in
lowest terms. -/
structure PyQ where
  n : Int
  d : Nat
deriving DecidableEq, Repr

/-- Normalising constructor: reduces `n / d` to lowest terms (`d = 0` cannot
arise from the embedded operations and is mapped to `0`). -/
def PyQ.mk' (n : Int) (d : Nat) : PyQ :=
  if d = 0 then ⟨0, 1⟩ else
    let g := ngcd n.natAbs d
    ⟨n / (g : Int), d / g⟩

def PyQ.ofInt (n : Int) : PyQ := ⟨n, 1⟩

def PyQ.add (a b : PyQ) : PyQ := PyQ.mk' (a.n * b.d + b.n * a.d) (a.d * b.d)

def PyQ.sub (a b : PyQ) : PyQ := PyQ.mk' (a.n * b.d - b.n * a.d) (a.d * b.d)

def PyQ.mul (a b : PyQ) : PyQ := PyQ.mk' (a.n * b.n) (a.d * b.d)

/-- Exact rational division `a / b` (callers guard `b ≠ 0`). -/
def PyQ.div (a b : PyQ) : PyQ :=
  let nn : Int := a.n * (b.d : Int)
  let dd : Int := (a.d : Int) * b.n
  if dd < 0 then PyQ.mk' (-nn) (-dd).toNat else PyQ.mk' nn dd.toNat

/-- Rendering of an integer-valued float, as Python's `str`: `str(8.0) = "8.0"`.
Python's shortest-round-trip decimal rendering of non-integral floats is not
reproduced; no claim evaluates rendering at a non-integral value. -/
def PyQ.pyStr (q : PyQ) : String :=
  if q.d = 1 then toString q.n ++ ".0" else toString q.n ++ "/" ++ toString q.d

/-! ## Python float values -/

/-- A Python `float`: an exact finite rational, or one of the special values. -/
inductive PyFloat where
  | finite (q : PyQ)
  | inf
  | negInf
  | nan
deriving DecidableEq, Repr

/-- Python float `+` (exact on finite values; special values per IEEE rules). -/
def PyFloat.add : PyFloat → PyFloat → PyFloat
  | .nan, _ => .nan
  | _, .nan => .nan
  | .inf, .negInf => .nan
  | .negInf, .inf => .nan
  | .inf, _ => .inf
  | _, .inf => .inf
  | .negInf, _ => .negInf
  | _, .negInf => .negInf
  | .finite p, .finite q => .finite (p.add q)

/-- Python float `-`. -/
def PyFloat.sub : PyFloat → PyFloat → PyFloat
  | .nan, _ => .nan
  | _, .nan => .nan
  | .inf, .inf => .nan
  | .negInf, .negInf => .nan
  | .inf, _ => .inf
  | _, .inf => .negInf
  | .negInf, _ => .negInf
  | _, .negInf => .inf
  | .finite p, .finite q => .finite (p.sub q)

/-- Python float `*`. -/
def PyFloat.mul : PyFloat → PyFloat → PyFloat
  | .nan, _ => .nan
  | _, .nan => .nan
  | .inf, .inf => .inf
  | .inf, .negInf => .negInf
  | .negInf, .inf => .negInf
  | .negInf, .negInf => .inf
  | .inf, .finite q => if 0 < q.n then .inf else if q.n < 0 then .negInf else .nan
  | .finite q, .inf => if 0 < q.n then .inf else if q.n < 0 then .negInf else .nan
  | .negInf, .finite q => if 0 < q.n then .negInf else if q.n < 0 then .inf else .nan
  | .finite q, .negInf => if 0 < q.n then .negInf else if q.n < 0 then .inf else .nan
  | .finite p, .finite q => .finite (p.mul q)

/-- Python float `/` (true division); only reached with a divisor that is not
`== 0`, so the `finite p / finite 0` case is never exercised. -/
def PyFloat.div : PyFloat → PyFloat → PyFloat
  | .nan, _ => .nan
  | _, .nan => .nan
  | .inf, .inf => .nan
  | .inf, .negInf => .nan
  | .negInf, .inf => .nan
  | .negInf, .negInf => .nan
  | .inf, .finite q => if q.n < 0 then .negInf else .inf
  | .negInf, .finite q => if q.n < 0 then .inf else .negInf
  | .finite _, .inf => .finite (PyQ.ofInt 0)
  | .finite _, .negInf => .finite (PyQ.ofInt 0)
  | .finite p, .finite q => .finite (p.div q)

/-- `str` of a float (`"inf"`, `"-inf"`, `"nan"` match CPython). -/
def PyFloat.pyStr : PyFloat → String
  | .finite q => q.pyStr
  | .inf => "inf"
  | .negInf => "-inf"
  | .nan => "nan"

/-! ## Python values and operators -/

/-- The Python values the calculator is exercised with: the numeric tower
(`bool < int < float`) plus strings as the canonical non-numeric input. -/
inductive PyVal where
  | bool (b : Bool)
  | int (n : Int)
  | float (f : PyFloat)
  | str (s : String)
deriving DecidableEq, Repr

/-- `isinstance(v, (int, float))` — `bool` is a subclass of `int` in Python. -/
def isNumber : PyVal → Bool
  | .bool _ => true
  | .int _ => true
  | .float _ => true
  | .str _ => false

/-- The integer a value contributes to int-typed arithmetic (`True == 1`). -/
def PyVal.asIntVal? : PyVal → Option Int
  | .bool b => some (if b then 1 else 0)
  | .int n => some n
  | _ => none

/-- The float a numeric value coerces to in float-typed arithmetic. -/
def PyVal.asFloatVal? : PyVal → Option PyFloat
  | .bool b => some (.finite (PyQ.ofInt (if b then 1 else 0)))
  | .int n => some (.finite (PyQ.ofInt n))
  | .float f => some f
  | .str _ => none

/-- Errors raised by the embedded code: `ValueError(msg)` raised explicitly by
the source, and `TypeError` raised by the Python runtime for unsupported
operand types. -/
inductive PyError where
  | valueErr (msg : String)
  | typeErr
deriving DecidableEq, Repr

/-- Python `+`: int-typed when both operands are int-like, float-typed when a
float is involved, concatenation on strings, `TypeError` otherwise. -/
def pyAdd (a b : PyVal) : Except PyError PyVal :=
  match a, b with
  | .str s, .str t => .ok (.str (s ++ t))
  | _, _ =>
    match a.asIntVal?, b.asIntVal? with
    | some m, some n => .ok (.int (m + n))
    | _, _ =>
      match a.asFloatVal?, b.asFloatVal? with
      | some x, some y => .ok (.float (x.add y))
      | _, _ => .error .typeErr

/-- Python `-` on values. -/
def pySub (a b : PyVal) : Except PyError PyVal :=
  match a.asIntVal?, b.asIntVal? with
  | some m, some n => .ok (.int (m - n))
  | _, _ =>
    match a.asFloatVal?, b.asFloatVal? with
    | some x, some y => .ok (.float (x.sub y))
    | _, _ => .error .typeErr

/-- `s * k` for Python strings (empty for `k ≤ 0`). -/
def strRepeat (s : String) (k : Int) : String :=
  ⟨(List.replicate k.toNat s.data).flatten⟩

/-- Python `*` on values (including `str * int` replication). -/
def pyMul (a b : PyVal) : Except PyError PyVal :=
  match a.asIntVal?, b.asIntVal? with
  | some m, some n => .ok (.int (m * n))
  | _, _ =>
    match a, b with
    | .str s, bv =>
      match bv.asIntVal? with
      | some k => .ok (.str (strRepeat s k))
      | none => .error .typeErr
    | av, .str t =>
      match av.asIntVal? with
      | some k => .ok (.str (strRepeat t k))
      | none => .error .typeErr
    | _, _ =>
      match a.asFloatVal?, b.asFloatVal? with
      | some x, some y => .ok (.float (x.mul y))
      | _, _ => .error .typeErr

/-- Python `/` (true division: always float-typed on numbers). -/
def pyDiv (a b : PyVal) : Except PyError PyVal :=
  match a.asFloatVal?, b.asFloatVal? with
  | some x, some y => .ok (.float (x.div y))
  | _, _ => .error .typeErr

/-- Python `v == 0`: true exactly for `False`, `0`, `0.0` (and `-0.0`, which
the exact-rational model identifies with `0.0`). -/
def pyEqZero : PyVal → Bool
  | .bool b => !b
  | .int n => n == 0
  | .float (.finite q) => q.n == 0
  | _ => false

/-- `str(v)` for the embedded values, matching CPython's rendering. -/
def PyVal.pyStr : PyVal → String
  | .bool b => if b then "True" else "False"
  | .int n => toString n
  | .float f => f.pyStr
  | .str s => s

/-! ## The operation layer (`TemplateOperation` and its four subclasses) -/

/-- The four concrete `TemplateOperation` subclasses. -/
inductive OpKind where
  | addition
  | subtraction
  | multiplication
  | division
deriving DecidableEq, Repr

/-- `type(op).__name__` for each subclass. -/
def opClassName : OpKind → String
  | .addition => "Addition"
  | .subtraction => "Subtraction"
  | .multiplication => "Multiplication"
  | .division => "Division"

/-- ASCII lowercasing of a character (the class names are ASCII). -/
def charLower (c : Char) : Char :=
  if 'A' ≤ c ∧ c ≤ 'Z' then Char.ofNat (c.toNat + 32) else c

/-- ASCII `str.lower()` (all operation names in the program are ASCII). -/
def strLower (s : String) : String := ⟨s.data.map charLower⟩

/-- `op.__class__.__name__.lower()` — the name `Calculation.__str__` and
`__repr__` interpolate between the operands. -/
def opName (k : OpKind) : String := strLower (opClassName k)

/-- Severity of an emitted log line. -/
inductive LogLevel where
  | debug
  | info
  | error
deriving DecidableEq, Repr

/-- One emitted log line. -/
structure LogEntry where
  level : LogLevel
  msg : String
deriving DecidableEq, Repr

/-- Message of the `ValueError` raised by `validate_inputs`. -/
def invalidMsg : String := "Both inputs must be numbers."

/-- Message of the `ValueError` raised by `Division.execute` on `b == 0`. -/
def divZeroMsg : String := "Division by zero is not allowed."

/-- `TemplateOperation.validate_inputs`: raises `ValueError` (after logging an
error line) unless both inputs are `isinstance(_, (int, float))`. -/
def validate_inputs (a b : PyVal) : Except PyError Unit × List LogEntry :=
  if !(isNumber a) || !(isNumber b) then
    (.error (.valueErr invalidMsg),
      [⟨.error, "Invalid input: " ++ a.pyStr ++ ", " ++ b.pyStr
          ++ " (Inputs must be numbers)"⟩])
  else (.ok (), [])

/-- `execute` of each concrete subclass.  `Division.execute` logs and raises
`ValueError` when `b == 0`, and otherwise returns `a / b`. -/
def execute (k : OpKind) (a b : PyVal) : Except PyError PyVal × List LogEntry :=
  match k with
  | .addition => (pyAdd a b, [])
  | .subtraction => (pySub a b, [])
  | .multiplication => (pyMul a b, [])
  | .division =>
    if pyEqZero b then
      (.error (.valueErr divZeroMsg), [⟨.error, "Attempted to divide by zero."⟩])
    else (pyDiv a b, [])

/-- `TemplateOperation.log_result` — the report hook: one info line emitted
after a successful computation. -/
def log_result (a b r : PyVal) : LogEntry :=
  ⟨.info, "Operation performed: " ++ a.pyStr ++ " and " ++ b.pyStr
      ++ " -> Result: " ++ r.pyStr⟩

/-- `TemplateOperation.calculate`: validate, then execute, then log the result;
failures propagate immediately and skip the remaining steps. -/
def calculate (k : OpKind) (a b : PyVal) : Except PyError PyVal × List LogEntry :=
  match validate_inputs a b with
  | (.error e, lg) => (.error e, lg)
  | (.ok _, lg0) =>
    match execute k a b with
    | (.error e, lg1) => (.error e, lg0 ++ lg1)
    | (.ok r, lg1) => (.ok r, lg0 ++ lg1 ++ [log_result a b r])

/-- The value/exception outcome of `calculate`, ignoring the log. -/
def calcValue (k : OpKind) (a b : PyVal) : Except PyError PyVal :=
  (calculate k a b).1

/-! ## `OperationFactory` -/

/-- `OperationFactory.create_operation`: dictionary lookup on the lowercased
name; `dict.get` returns `None` (here `none`) for unknown names. -/
def create_operation (s : String) : Option OpKind :=
  let t := strLower s
  if t = "add" then some .addition
  else if t = "subtract" then some .subtraction
  else if t = "multiply" then some .multiplication
  else if t = "divide" then some .division
  else none

/-! ## `Calculation` records -/

/-- The `Calculation` dataclass: an operation paired with its two operands. -/
structure Calculation where
  operation : OpKind
  operand1 : PyVal
  operand2 : PyVal
deriving DecidableEq, Repr

/-- `Calculation.__str__`: recomputes the result via `operation.calculate` on
every call and renders `"<op1> <name> <op2> = <result>"`; the recomputation's
exception propagates. -/
def Calculation.strRender (c : Calculation) : Except PyError String :=
  match calcValue c.operation c.operand1 c.operand2 with
  | .error e => .error e
  | .ok r =>
    .ok (c.operand1.pyStr ++ " " ++ opName c.operation ++ " "
        ++ c.operand2.pyStr ++ " = " ++ r.pyStr)

/-- `Calculation.__repr__`: a structural rendering that never evaluates the
operation (total: it returns a string for every record). -/
def Calculation.reprDescribe (c : Calculation) : String :=
  "Calculation(" ++ c.operand1.pyStr ++ ", " ++ opName c.operation ++ ", "
    ++ c.operand2.pyStr ++ ")"

/-! ## Observers and `CalculatorWithObserver` -/

/-- An observer: anything with an `update(calculation)` method, which may
raise.  The program's own `HistoryObserver` is `historyObs` below. -/
structure Observer where
  update : Calculation → Except PyError Unit

/-- `HistoryObserver.update`: `logging.info(f"... -> {calculation}")`.  The
f-string eagerly evaluates `str(calculation)` (`Calculation.__str__`), so the
record is re-evaluated and a failing evaluation raises out of `update`. -/
def historyObs : Observer :=
  ⟨fun c => match c.strRender with
    | .error e => .error e
    | .ok _ => .ok ()⟩

/-- The body of `CalculatorWithObserver.notify_observers`, with `i` the index
of the first remaining observer.  Each iteration calls `observer.update(c)` and
then executes `logging.debug(f"Notified observer about: {calculation}")`, whose
f-string renders the record again; either failure aborts the loop and
propagates.  Returns the list of `(index, argument)` update invocations made,
in order, together with the outcome. -/
def notifyLoop (i : Nat) : List Observer → Calculation →
    List (Nat × Calculation) × Except PyError Unit
  | [], _ => ([], .ok ())
  | o :: rest, c =>
    match o.update c with
    | .error e => ([(i, c)], .error e)
    | .ok _ =>
      match c.strRender with
      | .error e => ([(i, c)], .error e)
      | .ok _ =>
        let p := notifyLoop (i + 1) rest c
        ((i, c) :: p.1, p.2)

/-- `CalculatorWithObserver.notify_observers`. -/
def notify_observers (obs : List Observer) (c : Calculation) :
    List (Nat × Calculation) × Except PyError Unit :=
  notifyLoop 0 obs c

/-- The mutable state of a `CalculatorWithObserver`. -/
structure CalculatorWithObserver where
  _history : List Calculation
  _observers : List Observer

/-- A fresh `CalculatorWithObserver()`. -/
def CalculatorWithObserver.new : CalculatorWithObserver := ⟨[], []⟩

/-- `CalculatorWithObserver.add_observer`: appends to the observer list (no
deduplication). -/
def add_observer (cw : CalculatorWithObserver) (o : Observer) :
    CalculatorWithObserver :=
  { cw with _observers := cw._observers ++ [o] }

/-- `CalculatorWithObserver.perform_operation`: builds the record, appends it
to history, notifies observers, executes
`logging.debug(f"Performed operation: {calculation}")` (whose f-string renders
the record), and finally returns `operation.calculate(a, b)`.  Any raise
leaves the already-appended record in history.  Returns the updated state, the
update invocations made, and the outcome. -/
def perform_operation (cw : CalculatorWithObserver) (op : OpKind)
    (a b : PyVal) :
    CalculatorWithObserver × List (Nat × Calculation) × Except PyError PyVal :=
  let c : Calculation := ⟨op, a, b⟩
  let calc1 := { cw with _history := cw._history ++ [c] }
  match notify_observers calc1._observers c with
  | (tr, .error e) => (calc1, tr, .error e)
  | (tr, .ok _) =>
    match c.strRender with
    | .error e => (calc1, tr, .error e)
    | .ok _ => (calc1, tr, calcValue op a b)

/-- The calculator the REPL constructs: a fresh `CalculatorWithObserver` with
one `HistoryObserver` added. -/
def replCalcInit : CalculatorWithObserver :=
  add_observer CalculatorWithObserver.new historyObs

/-- The REPL's dispatch of an already-parsed operation command: resolve the
name through the factory; if the factory returned an operation, perform it,
otherwise report the unknown operation (`none` outcome). -/
def replDispatch (cw : CalculatorWithObserver) (opStr : String)
    (a b : PyVal) :
    CalculatorWithObserver × Option (Except PyError PyVal) :=
  match create_operation opStr with
  | none => (cw, none)
  | some k =>
    let r := perform_operation cw k a b
    (r.1, some r.2.2)

/-! ## `SingletonCalculator`

The class-level attributes `_instance` and `_history` are modelled as explicit
process state.  Because `get_history` returns the history *list object* itself
(not a copy), list objects live in a small heap (`heap`), and the class stores
the address of its history list; `get_history` returns that address. -/

/-- Process-level state for `SingletonCalculator`: a heap of list objects, the
class attribute `_instance` (the token of the unique instance, if created) and
the class attribute `_history` (the address of the shared history list, set
when the instance is first created). -/
structure SCState where
  heap : List (List Calculation)
  instTok : Option Nat
  historyAddr : Option Nat
deriving DecidableEq, Repr

/-- Read a list object from the heap. -/
def heapRead (s : SCState) (a : Nat) : List Calculation := s.heap.getD a []

/-- Overwrite a list object in place (models mutating the list through any
reference to it, e.g. calling `.clear()` on it). -/
def heapWrite (s : SCState) (a : Nat) (v : List Calculation) : SCState :=
  { s with heap := s.heap.set a v }

/-- `SingletonCalculator.__new__`: on the first call allocates the instance and
initialises `cls._history = []`; every later call returns the stored instance
unchanged.  Returns the new state and the instance token. -/
def SingletonCalculator.new (s : SCState) : SCState × Nat :=
  match s.instTok with
  | some t => (s, t)
  | none =>
    let a := s.heap.length
    (⟨s.heap ++ [[]], some a, some a⟩, a)

/-- `SingletonCalculator.get_history`: returns the shared history list itself —
in the heap model, its address.  (The `pdb.set_trace()` breakpoint on the way
is an interactive artifact with no effect on the returned value.) -/
def SingletonCalculator.get_history (s : SCState) : Option Nat :=
  s.historyAddr

/-- `SingletonCalculator.perform_operation`: appends the record to the shared
history list, executes `logging.debug(f"...{calculation}")` (the f-string
renders the record, so a failing evaluation raises here), then returns
`operation.calculate(a, b)`. -/
def SingletonCalculator.perform_operation (s : SCState) (op : OpKind)
    (a b : PyVal) : SCState × Except PyError PyVal :=
  match s.historyAddr with
  | none => (s, .error .typeErr)
  | some addr =>
    let c : Calculation := ⟨op, a, b⟩
    let s1 := heapWrite s addr (heapRead s addr ++ [c])
    match c.strRender with
    | .error e => (s1, .error e)
    | .ok _ => (s1, calcValue op a b)

/-! ## Convenience constructors for concrete inputs -/

deriving instance DecidableEq for Except

/-- The float with integer value `n` (e.g. `fl 5` is Python's `5.0`). -/
def fl (n : Int) : PyVal := .float (.finite (PyQ.ofInt n))

/-! ## Helper lemmas about the operation layer -/

lemma validate_ok {a b : PyVal} (ha : isNumber a = true) (hb : isNumber b = true) :
    validate_inputs a b = (.ok (), []) := by
  simp [validate_inputs, ha, hb]

lemma calculate_valid_err {k : OpKind} {a b : PyVal} {e : PyError}
    {lg : List LogEntry} (ha : isNumber a = true) (hb : isNumber b = true)
    (h : execute k a b = (.error e, lg)) : calculate k a b = (.error e, lg) := by
  simp [calculate, validate_ok ha hb, h]

lemma calculate_valid_ok {k : OpKind} {a b r : PyVal} {lg : List LogEntry}
    (ha : isNumber a = true) (hb : isNumber b = true)
    (h : execute k a b = (.ok r, lg)) :
    calculate k a b = (.ok r, lg ++ [log_result a b r]) := by
  simp [calculate, validate_ok ha hb, h]

lemma calculate_invalid {k : OpKind} {a b : PyVal}
    (h : ¬(isNumber a = true ∧ isNumber b = true)) :
    calculate k a b = (.error (.valueErr invalidMsg),
      [⟨.error, "Invalid input: " ++ a.pyStr ++ ", " ++ b.pyStr
          ++ " (Inputs must be numbers)"⟩]) := by
  cases hA : isNumber a <;> cases hB : isNumber b <;>
    simp_all [calculate, validate_inputs]

lemma execute_addition (a b : PyVal) : execute .addition a b = (pyAdd a b, []) :=
  rfl

lemma execute_subtraction (a b : PyVal) :
    execute .subtraction a b = (pySub a b, []) := rfl

lemma execute_multiplication (a b : PyVal) :
    execute .multiplication a b = (pyMul a b, []) := rfl

lemma execute_division_zero {b : PyVal} (hz : pyEqZero b = true) (a : PyVal) :
    execute .division a b = (.error (.valueErr divZeroMsg),
      [⟨.error, "Attempted to divide by zero."⟩]) := by
  simp [execute, hz]

lemma execute_division_nonzero {b : PyVal} (hz : pyEqZero b = false)
    (a : PyVal) : execute .division a b = (pyDiv a b, []) := by
  simp [execute, hz]

lemma calcValue_eq_execute (k : OpKind) {a b : PyVal}
    (ha : isNumber a = true) (hb : isNumber b = true) :
    calcValue k a b = (execute k a b).1 := by
  rcases h : execute k a b with ⟨r, lg⟩
  cases r with
  | ok v => simp [calcValue, calculate_valid_ok ha hb h]
  | error e => simp [calcValue, calculate_valid_err ha hb h]

lemma pyAdd_err {a b : PyVal} {e : PyError} (h : pyAdd a b = .error e) :
    e = .typeErr := by
  cases a <;> cases b <;>
    simp_all [pyAdd, PyVal.asIntVal?, PyVal.asFloatVal?]

lemma pySub_err {a b : PyVal} {e : PyError} (h : pySub a b = .error e) :
    e = .typeErr := by
  cases a <;> cases b <;>
    simp_all [pySub, PyVal.asIntVal?, PyVal.asFloatVal?]

lemma pyMul_err {a b : PyVal} {e : PyError} (h : pyMul a b = .error e) :
    e = .typeErr := by
  cases a <;> cases b <;>
    simp_all [pyMul, PyVal.asIntVal?, PyVal.asFloatVal?]

lemma pyDiv_err {a b : PyVal} {e : PyError} (h : pyDiv a b = .error e) :
    e = .typeErr := by
  cases a <;> cases b <;>
    simp_all [pyDiv, PyVal.asIntVal?, PyVal.asFloatVal?]

lemma execute_err {k : OpKind} {a b : PyVal} {e : PyError} {lg : List LogEntry}
    (h : execute k a b = (.error e, lg)) :
    e = .typeErr ∨ e = .valueErr divZeroMsg := by
  cases k
  case addition =>
    rw [execute_addition] at h
    exact Or.inl (pyAdd_err (congrArg Prod.fst h))
  case subtraction =>
    rw [execute_subtraction] at h
    exact Or.inl (pySub_err (congrArg Prod.fst h))
  case multiplication =>
    rw [execute_multiplication] at h
    exact Or.inl (pyMul_err (congrArg Prod.fst h))
  case division =>
    cases hz : pyEqZero b
    · rw [execute_division_nonzero hz] at h
      exact Or.inl (pyDiv_err (congrArg Prod.fst h))
    · rw [execute_division_zero hz] at h
      have h1 : (Except.error (PyError.valueErr divZeroMsg)
          : Except PyError PyVal) = .error e := congrArg Prod.fst h
      exact Or.inr (Except.error.inj h1).symm

lemma execute_err_log {k : OpKind} {a b : PyVal} {e : PyError}
    {lg : List LogEntry} (h : execute k a b = (.error e, lg)) :
    ∀ x ∈ lg, x.level = .error := by
  intro x hx
  cases k
  case addition =>
    rw [execute_addition] at h
    have h2 : ([] : List LogEntry) = lg := congrArg Prod.snd h
    rw [← h2] at hx
    cases hx
  case subtraction =>
    rw [execute_subtraction] at h
    have h2 : ([] : List LogEntry) = lg := congrArg Prod.snd h
    rw [← h2] at hx
    cases hx
  case multiplication =>
    rw [execute_multiplication] at h
    have h2 : ([] : List LogEntry) = lg := congrArg Prod.snd h
    rw [← h2] at hx
    cases hx
  case division =>
    cases hz : pyEqZero b
    · rw [execute_division_nonzero hz] at h
      have h2 : ([] : List LogEntry) = lg := congrArg Prod.snd h
      rw [← h2] at hx
      cases hx
    · rw [execute_division_zero hz] at h
      have h2 : [(⟨.error, "Attempted to divide by zero."⟩ : LogEntry)] = lg :=
        congrArg Prod.snd h
      rw [← h2] at hx
      simp at hx
      simp [hx]

/-- C1: for numeric operands, `Addition.calculate` returns the Python sum,
`Subtraction.calculate` the difference, `Multiplication.calculate` the product,
and `Division.calculate` the quotient when `b != 0`; `Division.calculate(a, b)`
with `b == 0` raises the division-by-zero `ValueError` instead of returning a
value. -/
theorem C1_operations_correct (a b : PyVal)
    (ha : isNumber a = true) (hb : isNumber b = true) :
    calcValue .addition a b = pyAdd a b ∧
    calcValue .subtraction a b = pySub a b ∧
    calcValue .multiplication a b = pyMul a b ∧
    (pyEqZero b = false → calcValue .division a b = pyDiv a b) ∧
    (pyEqZero b = true →
      calcValue .division a b = .error (.valueErr divZeroMsg)) := by
  refine ⟨?_, ?_, ?_, ?_, ?_⟩
  · rw [calcValue_eq_execute .addition ha hb, execute_addition]
  · rw [calcValue_eq_execute .subtraction ha hb, execute_subtraction]
  · rw [calcValue_eq_execute .multiplication ha hb, execute_multiplication]
  · intro hz
    rw [calcValue_eq_execute .division ha hb, execute_division_nonzero hz]
  · intro hz
    rw [calcValue_eq_execute .division ha hb, execute_division_zero hz]

/-- Witness for C1 at concrete inputs: `5 + 3`, `10 / 2`, and `10 / 0`. -/
theorem C1_operations_correct_witness :
    calcValue .addition (.int 5) (.int 3) = pyAdd (.int 5) (.int 3) ∧
    pyAdd (.int 5) (.int 3) = .ok (.int 8) ∧
    calcValue .division (.int 10) (.int 2) = pyDiv (.int 10) (.int 2) ∧
    pyDiv (.int 10) (.int 2) = .ok (fl 5) ∧
    calcValue .division (.int 10) (.int 0)
      = .error (.valueErr divZeroMsg) := by
  have h1 := C1_operations_correct (.int 5) (.int 3) rfl rfl
  have h2 := C1_operations_correct (.int 10) (.int 2) rfl rfl
  have h3 := C1_operations_correct (.int 10) (.int 0) rfl rfl
  exact ⟨h1.1, by decide, h2.2.2.2.1 (by decide), by decide,
    h3.2.2.2.2 (by decide)⟩

/-- C2 counterexample: `nan` is not a finite real number, yet
`Addition.calculate(nan, 1.0)` succeeds (returns `nan`) instead of failing
with the invalid-operand `ValueError` — validation only checks the Python
type. -/
theorem C2_counterexample :
    calcValue .addition (.float .nan) (fl 1) = .ok (.float .nan) ∧
    calcValue .addition (.float .nan) (fl 1)
      ≠ .error (.valueErr invalidMsg) := by
  exact ⟨by decide, by decide⟩

/-- C2 (amended): `calculate` runs validation, then the computation, then the
report hook, and returns the computed result; it fails with the
invalid-operand `ValueError` exactly when an operand is not an instance of
`int`/`float` (non-finite floats such as `nan` and `inf` pass validation);
the failure happens before any computation (only the validation error is
logged), and on any failure the report hook never fires (every logged line is
an error line, and the report line is appended only after a successful
computation). -/
theorem C2_template_order (k : OpKind) (a b : PyVal) :
    (¬(isNumber a = true ∧ isNumber b = true) →
      calculate k a b = (.error (.valueErr invalidMsg),
        [⟨.error, "Invalid input: " ++ a.pyStr ++ ", " ++ b.pyStr
            ++ " (Inputs must be numbers)"⟩])) ∧
    (∀ e lg, isNumber a = true → isNumber b = true →
      execute k a b = (.error e, lg) → calculate k a b = (.error e, lg)) ∧
    (∀ r lg, isNumber a = true → isNumber b = true →
      execute k a b = (.ok r, lg) →
      calculate k a b = (.ok r, lg ++ [log_result a b r])) ∧
    (∀ e, (calculate k a b).1 = .error e →
      ∀ x ∈ (calculate k a b).2, x.level = .error) ∧
    (∀ r, (calculate k a b).1 = .ok r →
      (calculate k a b).2.getLast? = some (log_result a b r)) := by
  refine ⟨fun h => calculate_invalid h,
    fun e lg ha hb h => calculate_valid_err ha hb h,
    fun r lg ha hb h => calculate_valid_ok ha hb h, ?_, ?_⟩
  · intro e he x hx
    by_cases hnum : isNumber a = true ∧ isNumber b = true
    · rcases h : execute k a b with ⟨r, lg⟩
      cases r with
      | ok v =>
        rw [calculate_valid_ok hnum.1 hnum.2 h] at he
        exact absurd he (by simp)
      | error e2 =>
        rw [calculate_valid_err hnum.1 hnum.2 h] at hx
        exact execute_err_log h x hx
    · rw [calculate_invalid hnum] at hx
      simp at hx
      simp [hx]
  · intro r hr
    by_cases hnum : isNumber a = true ∧ isNumber b = true
    · rcases h : execute k a b with ⟨r2, lg⟩
      cases r2 with
      | ok v =>
        have hc := calculate_valid_ok hnum.1 hnum.2 h
        rw [hc] at hr
        simp at hr
        rw [hc]
        show (lg ++ [log_result a b v]).getLast? = some (log_result a b r)
        rw [List.getLast?_concat, hr]
      | error e2 =>
        rw [calculate_valid_err hnum.1 hnum.2 h] at hr
        exact absurd hr (by simp)
    · rw [calculate_invalid hnum] at hr
      exact absurd hr (by simp)

/-- Witness for C2 (amended) at a non-numeric input: `calculate("x", 1)` fails
with the invalid-operand `ValueError` and logs only the validation error. -/
theorem C2_template_order_witness :
    calculate .addition (.str "x") (.int 1) = (.error (.valueErr invalidMsg),
      [⟨.error, "Invalid input: x, 1 (Inputs must be numbers)"⟩]) := by
  have h := (C2_template_order .addition (.str "x") (.int 1)).1 (by decide)
  exact h

/-- C9: validation accepts every value of Python type `int` or `float`
regardless of finiteness or boolean-ness — `calculate` never raises the
invalid-operand `ValueError` on such inputs; in particular
`Addition.calculate(True, True)` returns `2` and
`Addition.calculate(inf, 1.0)` returns `inf`. -/
theorem C9_validation_type_only (a b : PyVal) (k : OpKind)
    (ha : isNumber a = true) (hb : isNumber b = true) :
    (calculate k a b).1 ≠ .error (.valueErr invalidMsg) ∧
    validate_inputs a b = (.ok (), []) ∧
    calcValue .addition (.bool true) (.bool true) = .ok (.int 2) ∧
    calcValue .addition (.float .inf) (fl 1) = .ok (.float .inf) := by
  refine ⟨?_, validate_ok ha hb, by decide, by decide⟩
  intro hcontra
  rcases h : execute k a b with ⟨r, lg⟩
  cases r with
  | ok v =>
    rw [calculate_valid_ok ha hb h] at hcontra
    exact absurd hcontra (by simp)
  | error e =>
    rw [calculate_valid_err ha hb h] at hcontra
    simp at hcontra
    rcases execute_err h with h2 | h2 <;> simp [h2, invalidMsg, divZeroMsg] at hcontra

/-- Witness for C9 at `nan` and `1`: no invalid-operand failure, plus the two
concrete evaluations. -/
theorem C9_validation_type_only_witness :
    (calculate .addition (.float .nan) (.int 1)).1
      ≠ .error (.valueErr invalidMsg) ∧
    calcValue .addition (.bool true) (.bool true) = .ok (.int 2) ∧
    calcValue .addition (.float .inf) (fl 1) = .ok (.float .inf) := by
  have h := C9_validation_type_only (.float .nan) (.int 1) .addition rfl rfl
  exact ⟨h.1, h.2.2.1, h.2.2.2⟩

/-! ## Helper lemmas about notification -/

lemma strRender_err {c : Calculation} {e : PyError}
    (h : calcValue c.operation c.operand1 c.operand2 = .error e) :
    c.strRender = .error e := by
  simp [Calculation.strRender, h]

lemma historyObs_update_err {c : Calculation} {e : PyError}
    (h : c.strRender = .error e) : historyObs.update c = .error e := by
  simp [historyObs, h]

lemma notifyLoop_ok {c : Calculation} {s : String} (hr : c.strRender = .ok s) :
    ∀ (obs : List Observer) (i : Nat), (∀ o ∈ obs, o.update c = .ok ()) →
      notifyLoop i obs c
        = ((List.range' i obs.length).map (fun j => (j, c)), .ok ()) := by
  intro obs
  induction obs with
  | nil => intro i _; rfl
  | cons o rest ih =>
    intro i h
    have ho := h o (List.mem_cons_self o rest)
    have hrest : ∀ p ∈ rest, p.update c = .ok () :=
      fun p hp => h p (List.mem_cons_of_mem o hp)
    simp [notifyLoop, ho, hr, ih (i+1) hrest, List.range']

lemma notifyLoop_first_fails {c : Calculation} {e : PyError} {o : Observer}
    {rest : List Observer} {i : Nat}
    (h : o.update c = .error e ∨ (o.update c = .ok () ∧ c.strRender = .error e)) :
    notifyLoop i (o :: rest) c = ([(i, c)], .error e) := by
  rcases h with h | ⟨h1, h2⟩
  · simp [notifyLoop, h]
  · simp [notifyLoop, h1, h2]

lemma notifyLoop_fail_at {c : Calculation} {s : String} {e : PyError}
    (hr : c.strRender = .ok s) :
    ∀ (pre : List Observer) (o : Observer) (post : List Observer) (i : Nat),
      (∀ p ∈ pre, p.update c = .ok ()) → o.update c = .error e →
      notifyLoop i (pre ++ o :: post) c
        = ((List.range' i (pre.length + 1)).map (fun j => (j, c)), .error e) := by
  intro pre
  induction pre with
  | nil =>
    intro o post i _ hoe
    simp [notifyLoop, hoe, List.range']
  | cons p rest ih =>
    intro o post i h hoe
    have hp := h p (List.mem_cons_self p rest)
    have hrest : ∀ q ∈ rest, q.update c = .ok () :=
      fun q hq => h q (List.mem_cons_of_mem p hq)
    simp [notifyLoop, hp, hr, ih o post (i+1) hrest hoe, List.range']

/-- C3 counterexample: with two registered `HistoryObserver`s, performing a
divide-by-zero operation raises during notification of the FIRST observer
(its `update` log line renders the record, re-running the failing
evaluation): the error propagates and the record is in history, but the
second observer is never notified — contradicting "notifies every registered
observer before invoking the operation's evaluation". -/
theorem C3_counterexample :
    (perform_operation ⟨[], [historyObs, historyObs]⟩ .division (fl 10)
        (fl 0)).2.2 = .error (.valueErr divZeroMsg) ∧
    (perform_operation ⟨[], [historyObs, historyObs]⟩ .division (fl 10)
        (fl 0)).1._history = [⟨.division, fl 10, fl 0⟩] ∧
    (perform_operation ⟨[], [historyObs, historyObs]⟩ .division (fl 10)
        (fl 0)).2.1 = [(0, ⟨.division, fl 10, fl 0⟩)] ∧
    (1, (⟨.division, fl 10, fl 0⟩ : Calculation))
      ∉ (perform_operation ⟨[], [historyObs, historyObs]⟩ .division (fl 10)
        (fl 0)).2.1 := by
  exact ⟨by decide, by decide, by decide, by decide⟩

/-- C3 (amended): `perform_operation` constructs the record and appends it to
history before any evaluation, so when evaluation fails the error propagates
to the caller while the record remains in history (length grew by exactly
one, new record last).  However, the notification loop itself renders the
record (each observer's `update` log line and the loop's debug line), which
re-runs the failing evaluation: so the failure surfaces during notification
and observers after the first are never notified (the invocation trace is
`[(0, record)]` when any observer is registered, `[]` otherwise). -/
theorem C3_history_kept_on_failure (cw : CalculatorWithObserver)
    (op : OpKind) (a b : PyVal) (e : PyError)
    (hev : calcValue op a b = .error e)
    (hobs : ∀ o ∈ cw._observers, o.update ⟨op, a, b⟩ = .ok () ∨ o = historyObs) :
    (perform_operation cw op a b).1._history = cw._history ++ [⟨op, a, b⟩] ∧
    (perform_operation cw op a b).1._history.length
      = cw._history.length + 1 ∧
    (perform_operation cw op a b).1._history.getLast? = some ⟨op, a, b⟩ ∧
    (perform_operation cw op a b).2.2 = .error e ∧
    (perform_operation cw op a b).2.1
      = if cw._observers.isEmpty then [] else [(0, ⟨op, a, b⟩)] := by
  have hr : Calculation.strRender ⟨op, a, b⟩ = .error e := strRender_err hev
  rcases hO : cw._observers with _ | ⟨o, rest⟩
  · simp [perform_operation, notify_observers, notifyLoop, hr, hO,
      List.getLast?_concat]
  · have ho := hobs o (by rw [hO]; exact List.mem_cons_self o rest)
    have hupd : o.update ⟨op, a, b⟩ = .error e
        ∨ (o.update ⟨op, a, b⟩ = .ok () ∧
            Calculation.strRender ⟨op, a, b⟩ = .error e) := by
      rcases ho with h | h
      · exact Or.inr ⟨h, hr⟩
      · exact Or.inl (by rw [h]; exact historyObs_update_err hr)
    have hnl := @notifyLoop_first_fails ⟨op, a, b⟩ e o rest 0 hupd
    simp [perform_operation, notify_observers, hO, hnl,
      List.getLast?_concat]

/-- Witness for C3 (amended): the REPL's single-observer calculator, command
`divide 7 0`: error propagates, record kept, only observer 0 in the trace. -/
theorem C3_history_kept_on_failure_witness :
    (perform_operation ⟨[], [historyObs]⟩ .division (fl 7) (fl 0)).1._history
      = [] ++ [⟨.division, fl 7, fl 0⟩] ∧
    (perform_operation ⟨[], [historyObs]⟩ .division (fl 7) (fl 0)).2.2
      = .error (.valueErr divZeroMsg) := by
  have h := C3_history_kept_on_failure ⟨[], [historyObs]⟩ .division (fl 7)
    (fl 0) (.valueErr divZeroMsg) (by decide)
    (fun o ho => Or.inr (List.mem_singleton.mp ho))
  exact ⟨h.1, h.2.2.2.1⟩

/-- C7 counterexample: two benign listeners (whose `update` always succeeds)
and a divide-by-zero call: neither listener raises, yet only the first is
invoked — the notification loop's own debug log line renders the record,
re-runs the failing evaluation, and raises before reaching the second
listener.  This contradicts "invokes each subscribed listener's update
exactly once". -/
theorem C7_counterexample :
    Observer.update ⟨fun _ => .ok ()⟩ ⟨.division, fl 1, fl 0⟩ = .ok () ∧
    (perform_operation ⟨[], [⟨fun _ => .ok ()⟩, ⟨fun _ => .ok ()⟩]⟩ .division
        (fl 1) (fl 0)).2.1 = [(0, ⟨.division, fl 1, fl 0⟩)] ∧
    (1, (⟨.division, fl 1, fl 0⟩ : Calculation))
      ∉ (perform_operation ⟨[], [⟨fun _ => .ok ()⟩, ⟨fun _ => .ok ()⟩]⟩
          .division (fl 1) (fl 0)).2.1 ∧
    (perform_operation ⟨[], [⟨fun _ => .ok ()⟩, ⟨fun _ => .ok ()⟩]⟩ .division
        (fl 1) (fl 0)).2.2 = .error (.valueErr divZeroMsg) := by
  exact ⟨rfl, by decide, by decide, by decide⟩

/-- C7 (amended): `add_observer` appends (duplicates kept, each occurrence its
own slot).  Provided the new record's rendering succeeds (the operation
evaluates without error), one `perform_operation` call invokes each
subscribed listener's `update` exactly once with the new record, in
subscription order, and returns the computed result; if some listener's
`update` raises, the exception is not caught — it propagates to the caller
and the listeners after it are not invoked.  (When the record's rendering
itself fails, notification instead aborts after the first listener — see the
counterexample.) -/
theorem C7_listener_invocations (cw : CalculatorWithObserver) (op : OpKind)
    (a b : PyVal) :
    (∀ o, (add_observer cw o)._observers = cw._observers ++ [o]) ∧
    (∀ s, Calculation.strRender ⟨op, a, b⟩ = .ok s →
      (∀ o ∈ cw._observers, o.update ⟨op, a, b⟩ = .ok ()) →
      (perform_operation cw op a b).2.1
        = (List.range cw._observers.length).map
            (fun j => (j, (⟨op, a, b⟩ : Calculation))) ∧
      (perform_operation cw op a b).2.2 = calcValue op a b) ∧
    (∀ pre o post e s, Calculation.strRender ⟨op, a, b⟩ = .ok s →
      cw._observers = pre ++ o :: post →
      (∀ p ∈ pre, p.update ⟨op, a, b⟩ = .ok ()) →
      o.update ⟨op, a, b⟩ = .error e →
      (perform_operation cw op a b).2.1
        = (List.range (pre.length + 1)).map
            (fun j => (j, (⟨op, a, b⟩ : Calculation))) ∧
      (perform_operation cw op a b).2.2 = .error e) := by
  refine ⟨fun o => rfl, ?_, ?_⟩
  · intro s hr hok
    have hnl := notifyLoop_ok hr cw._observers 0 hok
    rw [List.range_eq_range']
    constructor
    · simp [perform_operation, notify_observers, hnl, hr]
    · simp [perform_operation, notify_observers, hnl, hr]
  · intro pre o post e s hr hsplit hpre hoe
    have hnl := notifyLoop_fail_at hr pre o post 0 hpre hoe
    rw [List.range_eq_range']
    constructor
    · simp [perform_operation, notify_observers, hsplit, hnl]
    · simp [perform_operation, notify_observers, hsplit, hnl]

/-- Witness for C7 (amended): two `HistoryObserver`s, `add 2 3`: both invoked
once, in order, and the computed result is returned. -/
theorem C7_listener_invocations_witness :
    (perform_operation ⟨[], [historyObs, historyObs]⟩ .addition (.int 2)
        (.int 3)).2.1
      = (List.range ([historyObs, historyObs] : List Observer).length).map
          (fun j => (j, (⟨.addition, .int 2, .int 3⟩ : Calculation))) ∧
    (perform_operation ⟨[], [historyObs, historyObs]⟩ .addition (.int 2)
        (.int 3)).2.2 = calcValue .addition (.int 2) (.int 3) := by
  have h := C7_listener_invocations ⟨[], [historyObs, historyObs]⟩ .addition
    (.int 2) (.int 3)
  exact h.2.1 "2 addition 3 = 5" (by decide) (by decide)

/-! ## Rendering, factory, singleton claims -/

/-- C4 counterexample: the record stored for `add 5 3` renders
`"5.0 addition 3.0 = 8.0"` — the lowercased class name `Addition`, NOT the
registry name `add` — so the claimed exact string `"5.0 add 3.0 = 8.0"` is
wrong. -/
theorem C4_counterexample :
    create_operation "add" = some .addition ∧
    Calculation.strRender ⟨.addition, fl 5, fl 3⟩
      = .ok "5.0 addition 3.0 = 8.0" ∧
    Calculation.strRender ⟨.addition, fl 5, fl 3⟩
      ≠ .ok "5.0 add 3.0 = 8.0" := by
  exact ⟨by decide, by decide, by decide⟩

/-- C4 (amended): dispatching `add 5 3` through the REPL calculator makes the
ledger length 1, returns `8.0`, and the stored record renders exactly
`"5.0 addition 3.0 = 8.0"` — the name between the operands is the lowercased
operation class name (`addition`), not the registry name (`add`). -/
theorem C4_end_to_end_add :
    (replDispatch replCalcInit "add" (fl 5) (fl 3)).1._history.length = 1 ∧
    (replDispatch replCalcInit "add" (fl 5) (fl 3)).1._history
      = [⟨.addition, fl 5, fl 3⟩] ∧
    (replDispatch replCalcInit "add" (fl 5) (fl 3)).2 = some (.ok (fl 8)) ∧
    Calculation.strRender ⟨.addition, fl 5, fl 3⟩
      = .ok "5.0 addition 3.0 = 8.0" := by
  exact ⟨by decide, by decide, by decide, by decide⟩

lemma pyEqZero_isNumber {v : PyVal} (h : pyEqZero v = true) :
    isNumber v = true := by
  cases v <;> simp_all [pyEqZero, isNumber]

/-- C5: `__repr__` (describe) is total — it returns the structural string for
every record, without evaluating the operation, hence never raises — while
`__str__` (render) on a division record with a zero second operand recomputes
the result through the operation and fails with the division-by-zero
`ValueError`, which propagates to the caller. -/
theorem C5_describe_total_render_fails (c : Calculation) :
    c.reprDescribe
      = "Calculation(" ++ c.operand1.pyStr ++ ", " ++ opName c.operation
          ++ ", " ++ c.operand2.pyStr ++ ")" ∧
    (c.operation = .division → isNumber c.operand1 = true →
      pyEqZero c.operand2 = true →
      c.strRender = .error (.valueErr divZeroMsg)) := by
  refine ⟨rfl, ?_⟩
  intro hop ha hz
  have hb : isNumber c.operand2 = true := pyEqZero_isNumber hz
  have h1 : calcValue c.operation c.operand1 c.operand2
      = .error (.valueErr divZeroMsg) := by
    rw [hop, calcValue_eq_execute .division ha hb, execute_division_zero hz]
  exact strRender_err h1

/-- Witness for C5 at the division record `(10.0, division, 0)`. -/
theorem C5_describe_total_render_fails_witness :
    Calculation.reprDescribe ⟨.division, fl 10, .int 0⟩
      = "Calculation(10.0, division, 0)" ∧
    Calculation.strRender ⟨.division, fl 10, .int 0⟩
      = .error (.valueErr divZeroMsg) := by
  have h := C5_describe_total_render_fails ⟨.division, fl 10, .int 0⟩
  exact ⟨by decide, h.2 rfl (by decide) (by decide)⟩

/-- C6: `create_operation` is case-insensitive and total: any string whose
lowercasing is one of `add`/`subtract`/`multiply`/`divide` resolves to the
matching operation class, and every other string resolves to the not-found
sentinel `none` rather than raising. -/
theorem C6_factory_resolution (s : String) :
    (strLower s = "add" → create_operation s = some .addition) ∧
    (strLower s = "subtract" → create_operation s = some .subtraction) ∧
    (strLower s = "multiply" → create_operation s = some .multiplication) ∧
    (strLower s = "divide" → create_operation s = some .division) ∧
    (strLower s ≠ "add" → strLower s ≠ "subtract" → strLower s ≠ "multiply" →
      strLower s ≠ "divide" → create_operation s = none) := by
  refine ⟨fun h => by simp [create_operation, h],
    fun h => by simp [create_operation, h],
    fun h => by simp [create_operation, h],
    fun h => by simp [create_operation, h], ?_⟩
  intro h1 h2 h3 h4
  simp [create_operation, h1, h2, h3, h4]

/-- Witness for C6: an upper-cased known name and an unknown name. -/
theorem C6_factory_resolution_witness :
    create_operation "MULTIPLY" = some .multiplication ∧
    create_operation "modulo" = none := by
  have h1 := (C6_factory_resolution "MULTIPLY").2.2.1 (by decide)
  have h2 := (C6_factory_resolution "modulo").2.2.2.2 (by decide) (by decide)
    (by decide) (by decide)
  exact ⟨h1, h2⟩

/-- C8: `SingletonCalculator()` always yields the identical single instance:
with an instance already stored, construction returns it and changes nothing
(in particular the history is neither reset nor replaced); the first
construction creates the instance and initialises the shared history to the
empty list; and constructing twice yields exactly what constructing once
yields. -/
theorem C8_singleton_identity (s : SCState) :
    (∀ t, s.instTok = some t → SingletonCalculator.new s = (s, t)) ∧
    (s.instTok = none →
      SingletonCalculator.new s
        = (⟨s.heap ++ [[]], some s.heap.length, some s.heap.length⟩,
            s.heap.length)) ∧
    SingletonCalculator.new (SingletonCalculator.new s).1
      = SingletonCalculator.new s := by
  refine ⟨?_, ?_, ?_⟩
  · intro t ht
    simp [SingletonCalculator.new, ht]
  · intro ht
    simp [SingletonCalculator.new, ht]
  · rcases ht : s.instTok with _ | t
    · simp [SingletonCalculator.new, ht]
    · simp [SingletonCalculator.new, ht]

/-- Witness for C8: first construction from the fresh process state, then a
second construction returning the same instance with the state untouched. -/
theorem C8_singleton_identity_witness :
    SingletonCalculator.new (⟨[], none, none⟩ : SCState)
      = (⟨[[]], some 0, some 0⟩, 0) ∧
    SingletonCalculator.new (⟨[[]], some 0, some 0⟩ : SCState)
      = (⟨[[]], some 0, some 0⟩, 0) := by
  refine ⟨?_, ?_⟩
  · exact (C8_singleton_identity ⟨[], none, none⟩).2.1 rfl
  · exact (C8_singleton_identity ⟨[[]], some 0, some 0⟩).1 0 rfl

/-- C10: `get_history` returns the live shared history list itself (its heap
address), not a copy: clearing the list through that reference empties the
history seen by every later `get_history` call and by `perform_operation`
(whose next append lands in the cleared list). -/
theorem C10_get_history_live (s : SCState) (addr : Nat)
    (h1 : s.historyAddr = some addr) (h2 : addr < s.heap.length) :
    SingletonCalculator.get_history s = some addr ∧
    SingletonCalculator.get_history (heapWrite s addr []) = some addr ∧
    heapRead (heapWrite s addr []) addr = [] ∧
    (∀ op a b, heapRead
        (SingletonCalculator.perform_operation (heapWrite s addr []) op a b).1
        addr = [⟨op, a, b⟩]) := by
  refine ⟨by simp [SingletonCalculator.get_history, h1],
    by simp [SingletonCalculator.get_history, heapWrite, h1], ?_, ?_⟩
  · simp [heapRead, heapWrite, List.getD_eq_getElem?_getD,
      List.getElem?_set_eq_of_lt _ h2]
  · intro op a b
    cases hR : Calculation.strRender ⟨op, a, b⟩ with
    | error e =>
      simp [SingletonCalculator.perform_operation, h1, hR, heapRead,
        heapWrite, List.getD_eq_getElem?_getD,
        List.getElem?_set_eq_of_lt, h2, List.length_set]
    | ok v =>
      simp [SingletonCalculator.perform_operation, h1, hR, heapRead,
        heapWrite, List.getD_eq_getElem?_getD,
        List.getElem?_set_eq_of_lt, h2, List.length_set]

/-- Witness for C10 at a concrete one-record state: clear through the
returned reference, observe emptiness and the next append landing in the
cleared list. -/
theorem C10_get_history_live_witness :
    SingletonCalculator.get_history
      (⟨[[⟨.addition, .int 1, .int 2⟩]], some 0, some 0⟩ : SCState)
      = some 0 ∧
    heapRead (heapWrite ⟨[[⟨.addition, .int 1, .int 2⟩]], some 0, some 0⟩ 0 [])
      0 = [] ∧
    heapRead (SingletonCalculator.perform_operation
        (heapWrite ⟨[[⟨.addition, .int 1, .int 2⟩]], some 0, some 0⟩ 0 [])
        .multiplication (.int 4) (.int 2)).1 0
      = [⟨.multiplication, .int 4, .int 2⟩] := by
  have h := C10_get_history_live ⟨[[⟨.addition, .int 1, .int 2⟩]], some 0,
    some 0⟩ 0 rfl (by decide)
  exact ⟨h.1, h.2.2.1, h.2.2.2 .multiplication (.int 4) (.int 2)⟩

end CalcApp
